import Mathlib

/-!
# static/js/scripts.js : homepage carousel start-up

A shallow embedding of the one script of the repository,

    document.addEventListener("DOMContentLoaded", function () {
      var carouselElement = document.querySelector("#homeCarousel");
      if (carouselElement && typeof bootstrap !== "undefined") {
        try {
          var carousel = bootstrap.Carousel.getOrCreateInstance(carouselElement, {
            interval: 2000,
            ride: "carousel"
          });
        } catch (error) {
          console.warn("Error initializing carousel:", error);
        }
      }
    });

The script is straight-line code over three ambient collaborators: the
document (element lookup, event subscription), the optional global
`bootstrap`, and the console.  The embedding makes them explicit:

* JavaScript values are the inductive type `JSValue`;
* a computation is a function from the state of the widget library to a
  completion (normal or abrupt), the new library state, and the list of
  observable actions it performed, in order (`JS`);
* the environment (`Env`) gives the result of `document.querySelector`, the
  binding of the global `bootstrap`, and the behaviour of every callable value;
* the binding of a global (`Binding`) is absent, uninitialised (a `let`, `const`
  or `class` declaration not yet evaluated), a value, or an accessor of the
  global object whose getter throws.

Modelling assumptions, all about the host and none about the script:
`document.querySelector` and `console.warn` are the standard host functions
and complete normally; the properties of objects are plain data properties;
a call of a library function completes (normally or abruptly).
-/

namespace Scripts

/-! ## JavaScript values -/

/-- The JavaScript values the script can meet.  `element h` is the DOM element
with handle `h`; `function f props` is a callable object whose behaviour is
`Env.call f` and whose own properties are `props` (a class such as
`bootstrap.Carousel` is one, its static methods being properties);
`error name` is an error object such as a `TypeError`. -/
inductive JSValue where
  | undefined
  | null
  | boolean (b : Bool)
  | number (n : Int)
  | string (s : String)
  | element (h : Nat)
  | error (name : String)
  | object (props : List (String × JSValue))
  | function (f : Nat) (props : List (String × JSValue))

namespace JSValue

/-- The `typeof` operator on a value. -/
def typeof : JSValue → String
  | undefined => "undefined"
  | null => "object"
  | boolean _ => "boolean"
  | number _ => "number"
  | string _ => "string"
  | element _ => "object"
  | error _ => "object"
  | object _ => "object"
  | function _ _ => "function"

/-- ToBoolean: the truthiness used by `&&` and `if`. -/
def toBoolean : JSValue → Bool
  | undefined => false
  | null => false
  | boolean b => b
  | number n => n != 0
  | string s => s != ""
  | element _ => true
  | error _ => true
  | object _ => true
  | function _ _ => true

/-- The own properties of a value (none for a primitive). -/
def props : JSValue → List (String × JSValue)
  | object ps => ps
  | function _ ps => ps
  | _ => []

/-- Whether the value has a member called `name`. -/
def hasMember (v : JSValue) (name : String) : Bool :=
  (v.props.lookup name).isSome

/-- Whether the value is `null` or `undefined` (no property can be read). -/
def isNullish : JSValue → Bool
  | undefined => true
  | null => true
  | _ => false

end JSValue

/-! ## Observable actions and computations -/

/-- The observable actions of the script, in the order they happen. -/
inductive Event where
  /-- The call `document.addEventListener(type, listener)`. -/
  | addEventListener (type : String)
  /-- The call `document.querySelector(selector)`. -/
  | querySelector (selector : String)
  /-- The operator `typeof` applied to the global identifier `name`. -/
  | typeofGlobal (name : String)
  /-- Reading the value of the global identifier `name`. -/
  | readGlobal (name : String)
  /-- Reading the property `name` of `base`. -/
  | getMember (base : JSValue) (name : String)
  /-- Calling the function `f` with the given `this` value and arguments. -/
  | call (f : Nat) (thisArg : JSValue) (args : List JSValue)
  /-- The call `console.warn(args...)`. -/
  | warn (args : List JSValue)

namespace Event

/-- The arguments of the action when it is a `console.warn`. -/
def warnArgs? : Event → Option (List JSValue)
  | warn args => some args
  | _ => none

/-- The function, `this` value and arguments of the action when it is a call. -/
def callArgs? : Event → Option (Nat × JSValue × List JSValue)
  | call f t args => some (f, t, args)
  | _ => none

/-- Whether the action reads the library: its global or one of its members. -/
def isLibraryAccess : Event → Bool
  | readGlobal _ => true
  | getMember _ _ => true
  | call _ _ _ => true
  | _ => false

/-- Whether the action is an element lookup. -/
def isLookup : Event → Bool
  | querySelector _ => true
  | _ => false

/-- Whether the action is an event subscription. -/
def isSubscription : Event → Bool
  | addEventListener _ => true
  | _ => false

end Event

/-- The console output of a run: the argument list of each `console.warn`. -/
def warnings (es : List Event) : List (List JSValue) :=
  es.filterMap Event.warnArgs?

/-- The function calls of a run. -/
def calls (es : List Event) : List (Nat × JSValue × List JSValue) :=
  es.filterMap Event.callArgs?

/-- How a computation ends: normally with a value, or abruptly with a thrown
value. -/
inductive Completion (α : Type) where
  | normal (a : α)
  | throw (err : JSValue)

/-- Whether the completion is abrupt. -/
def Completion.isThrow {α : Type} : Completion α → Bool
  | .normal _ => false
  | .throw _ => true

/-- The outcome of running a computation: its completion, the state of the
widget library afterwards, and the actions performed. -/
structure Result (σ α : Type) where
  completion : Completion α
  state : σ
  events : List Event

/-- A computation over a library state of type `σ`. -/
def JS (σ α : Type) : Type := σ → Result σ α

namespace JS

variable {σ α β : Type}

/-- Complete normally with `a`. -/
def ret (a : α) : JS σ α := fun s => ⟨.normal a, s, []⟩

/-- Complete abruptly with `err`. -/
def throw (err : JSValue) : JS σ α := fun s => ⟨.throw err, s, []⟩

/-- Perform one observable action. -/
def emit (e : Event) : JS σ Unit := fun s => ⟨.normal (), s, [e]⟩

/-- Sequencing: an abrupt completion of `m` skips `f`. -/
def bind (m : JS σ α) (f : α → JS σ β) : JS σ β := fun s =>
  match m s with
  | ⟨.normal a, s1, es1⟩ =>
    match f a s1 with
    | ⟨c, s2, es2⟩ => ⟨c, s2, es1 ++ es2⟩
  | ⟨.throw err, s1, es1⟩ => ⟨.throw err, s1, es1⟩

/-- The statement `try body catch (error) handler`. -/
def tryCatch (body : JS σ α) (handler : JSValue → JS σ α) : JS σ α := fun s =>
  match body s with
  | ⟨.normal a, s1, es1⟩ => ⟨.normal a, s1, es1⟩
  | ⟨.throw err, s1, es1⟩ =>
    match handler err s1 with
    | ⟨c, s2, es2⟩ => ⟨c, s2, es1 ++ es2⟩

instance : Monad (JS σ) where
  pure := ret
  bind := bind

end JS

/-! ## The environment -/

/-- The states of the binding of a global identifier.

* `absent`: no binding exists; `typeof` gives "undefined", reading raises a
  `ReferenceError`;
* `uninitialized`: a `let`, `const` or `class` binding whose declaration has
  not been evaluated yet; `typeof` and reading both raise a `ReferenceError`;
* `value v`: the binding holds `v` (possibly `undefined`);
* `throwingAccessor err`: an accessor property of the global object whose
  getter throws `err`; `typeof` and reading both run the getter. -/
inductive Binding where
  | absent
  | uninitialized
  | value (v : JSValue)
  | throwingAccessor (err : JSValue)

/-- The ambient collaborators of the script.

* `querySelector sel` is the handle of the first element matching `sel` in the
  document, if there is one;
* `bootstrap` is the binding of the global identifier `bootstrap`;
* `call f thisArg args s` is the behaviour of the callable `f`: it completes
  normally with a value or abruptly with a thrown value, and leaves the
  library in a new state. -/
structure Env (σ : Type) where
  querySelector : String → Option Nat
  bootstrap : Binding
  call : Nat → JSValue → List JSValue → σ → Except JSValue JSValue × σ

variable {σ : Type}

/-- The outcome of `typeof bootstrap`.  On an identifier without a binding
`typeof` gives "undefined" instead of raising; on an uninitialised binding it
raises a `ReferenceError`; on a throwing accessor it raises what the getter
throws. -/
def Env.typeofBootstrap (env : Env σ) : Except JSValue String :=
  match env.bootstrap with
  | .absent => .ok "undefined"
  | .uninitialized => .error (.error "ReferenceError")
  | .value v => .ok v.typeof
  | .throwingAccessor err => .error err

/-! ## The host operations the script uses -/

/-- The call `document.querySelector(selector)`: the first matching element,
or `null`. -/
def querySelector (env : Env σ) (selector : String) : JS σ JSValue := do
  JS.emit (.querySelector selector)
  match env.querySelector selector with
  | some h => pure (.element h)
  | none => pure .null

/-- The expression `typeof bootstrap`. -/
def typeofBootstrap (env : Env σ) : JS σ String := do
  JS.emit (.typeofGlobal "bootstrap")
  match env.typeofBootstrap with
  | .ok t => pure t
  | .error err => JS.throw err

/-- The expression `bootstrap`: the value of the global, a `ReferenceError`
when it has no binding or an uninitialised one, what the getter throws when it
is a throwing accessor. -/
def readBootstrap (env : Env σ) : JS σ JSValue := do
  JS.emit (.readGlobal "bootstrap")
  match env.bootstrap with
  | .value v => pure v
  | .absent => JS.throw (.error "ReferenceError")
  | .uninitialized => JS.throw (.error "ReferenceError")
  | .throwingAccessor err => JS.throw err

/-- The expression `base.name`: a `TypeError` on `null` and `undefined`,
`undefined` when `base` has no such property. -/
def getMember (base : JSValue) (name : String) : JS σ JSValue := do
  JS.emit (.getMember base name)
  if base.isNullish then
    JS.throw (.error "TypeError")
  else
    pure ((base.props.lookup name).getD .undefined)

/-- The call `thisArg.f(args...)` once `f` has been read: a `TypeError` when `f`
is not callable, otherwise the behaviour the environment gives it. -/
def callFunction (env : Env σ) (f thisArg : JSValue) (args : List JSValue) : JS σ JSValue :=
  match f with
  | .function fid _ => fun s =>
    match env.call fid thisArg args s with
    | (.ok v, s1) => ⟨.normal v, s1, [.call fid thisArg args]⟩
    | (.error err, s1) => ⟨.throw err, s1, [.call fid thisArg args]⟩
  | _ => JS.throw (.error "TypeError")

/-- The call `console.warn(args...)`. -/
def consoleWarn (args : List JSValue) : JS σ Unit :=
  JS.emit (.warn args)

/-! ## The script -/

/-- The object literal `{ interval: 2000, ride: "carousel" }`. -/
def carouselConfig : JSValue :=
  .object [("interval", .number 2000), ("ride", .string "carousel")]

/-- The expression guarded by `try`:
`bootstrap.Carousel.getOrCreateInstance(carouselElement, {interval: 2000, ride: "carousel"})`.
The callee is read first (two property reads), then the arguments are
evaluated, then the call is made with `bootstrap.Carousel` as `this`. -/
def getOrCreateCall (env : Env σ) (carouselElement : JSValue) : JS σ JSValue := do
  let lib ← readBootstrap env
  let carouselClass ← getMember lib "Carousel"
  let callee ← getMember carouselClass "getOrCreateInstance"
  callFunction env callee carouselClass [carouselElement, carouselConfig]

/-- The listener `function () { ... }` of lines 3 to 17.  The local `carousel`
is assigned and never read; the function returns `undefined`. -/
def domContentLoadedHandler (env : Env σ) : JS σ JSValue := do
  let carouselElement ← querySelector env "#homeCarousel"
  let test ←
    if carouselElement.toBoolean then do
      let t ← typeofBootstrap env
      pure (t != "undefined")
    else
      pure false
  if test then
    JS.tryCatch
      (do
        let _carousel ← getOrCreateCall env carouselElement
        pure ())
      (fun error => consoleWarn [.string "Error initializing carousel:", error])
  pure .undefined

/-- The page as the script sees it: the listeners subscribed on the document,
in subscription order, and the state of the widget library. -/
structure Page (σ : Type) where
  listeners : List (String × JS σ JSValue)
  library : σ

/-- The call `document.addEventListener(type, listener)`. -/
def addEventListener (type : String) (listener : JS σ JSValue) : JS (Page σ) JSValue :=
  fun p => ⟨.normal .undefined,
    { p with listeners := p.listeners ++ [(type, listener)] },
    [.addEventListener type]⟩

/-- The top level of `scripts.js`: one statement, the subscription. -/
def scripts (env : Env σ) : JS (Page σ) JSValue :=
  addEventListener "DOMContentLoaded" (domContentLoadedHandler env)

/-- Run listeners one after the other on the library state.  What a listener
returns or throws is not passed on to the next one. -/
def runListeners : List (JS σ JSValue) → σ → σ × List Event
  | [], s => (s, [])
  | l :: ls, s =>
    match l s with
    | ⟨_, s1, es1⟩ =>
      match runListeners ls s1 with
      | (s2, es2) => (s2, es1 ++ es2)

/-- The host firing the event `type` on the document once: every listener
subscribed for `type` runs, in subscription order. -/
def dispatchEvent (type : String) (p : Page σ) : Page σ × List Event :=
  match runListeners ((p.listeners.filter (fun l => l.1 == type)).map Prod.snd) p.library with
  | (s, es) => ({ p with library := s }, es)

/-! ## The widget library, as the specification describes it

The carousel library is an external collaborator; the script only calls its
`getOrCreateInstance`.  The glossary of the specification describes it as
get-or-create over the instances bound to elements. -/

/-- A value for the global `bootstrap` with the shape the script reads: an
object whose member `Carousel` is a class (callable 0) with the static method
`getOrCreateInstance` (callable 1). -/
def carouselLibrary : JSValue :=
  .object [("Carousel", .function 0 [("getOrCreateInstance", .function 1 [])])]

/-- Modelled from the spec: a carousel control, with the configuration it was
constructed with, "a configuration object `{interval: number, ride: string}`".
The library itself is not part of the repository. -/
structure Instance where
  interval : JSValue
  ride : JSValue

/-- Modelled from the spec: the instances bound to elements, as pairs of an
element handle and the control bound to it. -/
abbrev InstanceStore : Type := List (Nat × Instance)

/-- Modelled from the spec: the control a configuration object describes. -/
def Instance.ofConfig (config : JSValue) : Instance :=
  { interval := (config.props.lookup "interval").getD .undefined
    ride := (config.props.lookup "ride").getD .undefined }

/-- Modelled from the spec: the control as a JavaScript value. -/
def Instance.toValue (inst : Instance) : JSValue :=
  .object [("interval", inst.interval), ("ride", inst.ride)]

/-- Modelled from the spec: the number of controls bound to `element`. -/
def instancesOf (element : Nat) (store : InstanceStore) : Nat :=
  (store.filter (fun b => b.1 == element)).length

/-- Modelled from the spec: the body of the library function
`bootstrap.Carousel.getOrCreateInstance`, which is not part of the repository.
Glossary: "Get-or-create instance: retrieve an already-bound widget control for
an element if one exists, otherwise construct a new one." -/
def getOrCreateInstance (element : Nat) (config : JSValue) (store : InstanceStore) :
    Instance × InstanceStore :=
  match store.lookup element with
  | some inst => (inst, store)
  | none => (Instance.ofConfig config, store ++ [(element, Instance.ofConfig config)])

/-- Modelled from the spec: the behaviour of the callables of
`carouselLibrary`.  `getOrCreateInstance` on an element is get-or-create on the
store; anything else (no element, or the class called as a function) raises a
`TypeError`. -/
def libraryCall : Nat → JSValue → List JSValue → InstanceStore →
    Except JSValue JSValue × InstanceStore
  | 1, _, .element h :: rest, store =>
    match getOrCreateInstance h (rest.headD .undefined) store with
    | (inst, store1) => (.ok inst.toValue, store1)
  | _, _, _, store => (.error (.error "TypeError"), store)

/-- Modelled from the spec: an environment with the library loaded, over a
document whose element lookup is `document`. -/
def libraryEnv (document : String → Option Nat) : Env InstanceStore :=
  { querySelector := document
    bootstrap := .value carouselLibrary
    call := libraryCall }

/-! ## Sample environments -/

/-- A document whose only element of interest is `#homeCarousel`, with
handle 7. -/
def homePage : String → Option Nat :=
  fun selector => if selector == "#homeCarousel" then some 7 else none

/-- A document without `#homeCarousel`. -/
def plainPage : String → Option Nat :=
  fun _ => none

/-- A stub library: every call returns an empty object, and the state counts
the calls made. -/
def stubEnv (document : String → Option Nat) : Env Nat :=
  { querySelector := document
    bootstrap := .value carouselLibrary
    call := fun _ _ _ n => (.ok (.object []), n + 1) }

/-- A library whose `getOrCreateInstance` throws the string "boom" and counts
the attempts. -/
def throwingEnv (document : String → Option Nat) : Env Nat :=
  { querySelector := document
    bootstrap := .value carouselLibrary
    call := fun _ _ _ n => (.error (.string "boom"), n + 1) }

/-- An environment in which the binding of the global `bootstrap` is `binding`
and nothing is callable. -/
def bareEnv (document : String → Option Nat) (binding : Binding) : Env Unit :=
  { querySelector := document
    bootstrap := binding
    call := fun _ _ _ s => (.error (.error "TypeError"), s) }

/-! ## Lemmas on the guarded call and on the listener -/

/-- The evaluation of the guarded call, by cases on the environment. -/
theorem getOrCreateCall_cases (env : Env σ) (x : JSValue) (s : σ) :
    (∃ err, getOrCreateCall env x s = ⟨.throw err, s, [.readGlobal "bootstrap"]⟩) ∨
    (∃ b err, getOrCreateCall env x s =
        ⟨.throw err, s, [.readGlobal "bootstrap", .getMember b "Carousel"]⟩) ∨
    (∃ b c err, getOrCreateCall env x s =
        ⟨.throw err, s, [.readGlobal "bootstrap", .getMember b "Carousel",
          .getMember c "getOrCreateInstance"]⟩) ∨
    (∃ b c f v s1, getOrCreateCall env x s =
        ⟨.normal v, s1, [.readGlobal "bootstrap", .getMember b "Carousel",
          .getMember c "getOrCreateInstance", .call f c [x, carouselConfig]]⟩) ∨
    (∃ b c f err s1, getOrCreateCall env x s =
        ⟨.throw err, s1, [.readGlobal "bootstrap", .getMember b "Carousel",
          .getMember c "getOrCreateInstance", .call f c [x, carouselConfig]]⟩) := by
  cases hb : env.bootstrap with
  | absent =>
    left
    exact ⟨.error "ReferenceError", by
      simp [getOrCreateCall, readBootstrap, hb, bind, JS.bind, JS.emit, JS.throw]⟩
  | uninitialized =>
    left
    exact ⟨.error "ReferenceError", by
      simp [getOrCreateCall, readBootstrap, hb, bind, JS.bind, JS.emit, JS.throw]⟩
  | throwingAccessor err =>
    left
    exact ⟨err, by
      simp [getOrCreateCall, readBootstrap, hb, bind, JS.bind, JS.emit, JS.throw]⟩
  | value b =>
    cases hbn : b.isNullish with
    | true =>
      right; left
      exact ⟨b, .error "TypeError", by
        simp [getOrCreateCall, readBootstrap, getMember, hb, hbn, bind, JS.bind, pure, JS.ret,
          JS.emit, JS.throw]⟩
    | false =>
      cases hcn : ((b.props.lookup "Carousel").getD .undefined).isNullish with
      | true =>
        right; right; left
        exact ⟨b, (b.props.lookup "Carousel").getD .undefined, .error "TypeError", by
          simp [getOrCreateCall, readBootstrap, getMember, hb, hbn, hcn, bind, JS.bind, pure,
            JS.ret, JS.emit, JS.throw]⟩
      | false =>
        cases hf : (((b.props.lookup "Carousel").getD .undefined).props.lookup
            "getOrCreateInstance").getD .undefined with
        | function f fp =>
          rcases hcall : env.call f ((b.props.lookup "Carousel").getD .undefined)
            [x, carouselConfig] s with ⟨r, s1⟩
          cases r with
          | ok v =>
            right; right; right; left
            exact ⟨b, (b.props.lookup "Carousel").getD .undefined, f, v, s1, by
              simp [getOrCreateCall, readBootstrap, getMember, callFunction, hb, hbn, hcn, hf,
                hcall, bind, JS.bind, pure, JS.ret, JS.emit, JS.throw]⟩
          | error err =>
            right; right; right; right
            exact ⟨b, (b.props.lookup "Carousel").getD .undefined, f, err, s1, by
              simp [getOrCreateCall, readBootstrap, getMember, callFunction, hb, hbn, hcn, hf,
                hcall, bind, JS.bind, pure, JS.ret, JS.emit, JS.throw]⟩
        | _ =>
          right; right; left
          exact ⟨b, (b.props.lookup "Carousel").getD .undefined, .error "TypeError", by
            simp [getOrCreateCall, readBootstrap, getMember, callFunction, hb, hbn, hcn, hf,
              bind, JS.bind, pure, JS.ret, JS.emit, JS.throw]⟩

/-- The guarded call writes nothing to the console. -/
theorem getOrCreateCall_warnings (env : Env σ) (x : JSValue) (s : σ) :
    warnings (getOrCreateCall env x s).events = [] := by
  rcases getOrCreateCall_cases env x s with ⟨_, h⟩ | ⟨_, _, h⟩ | ⟨_, _, _, h⟩ |
    ⟨_, _, _, _, _, h⟩ | ⟨_, _, _, _, _, h⟩ <;>
  simp [h, warnings, Event.warnArgs?]

/-- The guarded call calls at most one function. -/
theorem getOrCreateCall_calls (env : Env σ) (x : JSValue) (s : σ) :
    (calls (getOrCreateCall env x s).events).length ≤ 1 := by
  rcases getOrCreateCall_cases env x s with ⟨_, h⟩ | ⟨_, _, h⟩ | ⟨_, _, _, h⟩ |
    ⟨_, _, _, _, _, h⟩ | ⟨_, _, _, _, _, h⟩ <;>
  simp [h, calls, Event.callArgs?]

/-- The guarded call performs no element lookup. -/
theorem getOrCreateCall_lookups (env : Env σ) (x : JSValue) (s : σ) :
    (getOrCreateCall env x s).events.filter Event.isLookup = [] := by
  rcases getOrCreateCall_cases env x s with ⟨_, h⟩ | ⟨_, _, h⟩ | ⟨_, _, _, h⟩ |
    ⟨_, _, _, _, _, h⟩ | ⟨_, _, _, _, _, h⟩ <;>
  simp [h, Event.isLookup]

/-- The listener when the element is absent: the lookup and nothing else. -/
theorem handler_absent (env : Env σ) (s : σ)
    (h : env.querySelector "#homeCarousel" = none) :
    domContentLoadedHandler env s =
      ⟨.normal .undefined, s, [.querySelector "#homeCarousel"]⟩ := by
  simp [domContentLoadedHandler, querySelector, h, bind, JS.bind, pure, JS.ret, JS.emit,
    JSValue.toBoolean]

/-- The listener when the element is present and `typeof bootstrap` is
"undefined": the lookup, the `typeof`, and nothing else. -/
theorem handler_no_library (env : Env σ) (s : σ) (e : Nat)
    (h : env.querySelector "#homeCarousel" = some e)
    (hb : env.typeofBootstrap = .ok "undefined") :
    domContentLoadedHandler env s =
      ⟨.normal .undefined, s, [.querySelector "#homeCarousel", .typeofGlobal "bootstrap"]⟩ := by
  simp [domContentLoadedHandler, querySelector, typeofBootstrap, h, hb, bind, JS.bind, pure,
    JS.ret, JS.emit, JSValue.toBoolean]

/-- The listener when the element is present and `typeof bootstrap` raises
`err`: the `typeof` is outside the `try` block, so `err` reaches the caller. -/
theorem handler_guard_throw (env : Env σ) (s : σ) (e : Nat) (err : JSValue)
    (h : env.querySelector "#homeCarousel" = some e)
    (hb : env.typeofBootstrap = .error err) :
    domContentLoadedHandler env s =
      ⟨.throw err, s, [.querySelector "#homeCarousel", .typeofGlobal "bootstrap"]⟩ := by
  simp [domContentLoadedHandler, querySelector, typeofBootstrap, h, hb, bind, JS.bind, pure,
    JS.ret, JS.emit, JS.throw, JSValue.toBoolean]

/-- The listener when the guard passes and the guarded call completes
normally. -/
theorem handler_call_normal (env : Env σ) (s s1 : σ) (e : Nat) (v : JSValue) (es : List Event)
    (t : String)
    (h : env.querySelector "#homeCarousel" = some e)
    (ht : env.typeofBootstrap = .ok t) (hb : t ≠ "undefined")
    (hr : getOrCreateCall env (.element e) s = ⟨.normal v, s1, es⟩) :
    domContentLoadedHandler env s =
      ⟨.normal .undefined, s1,
        .querySelector "#homeCarousel" :: .typeofGlobal "bootstrap" :: es⟩ := by
  simp [domContentLoadedHandler, querySelector, typeofBootstrap, h, ht, hb, hr, bind, JS.bind,
    pure, JS.ret, JS.emit, JSValue.toBoolean, JS.tryCatch, consoleWarn]

/-- The listener when the guard passes and the guarded call raises `err`: the
`catch` clause logs one warning and the listener completes normally. -/
theorem handler_call_throw (env : Env σ) (s s1 : σ) (e : Nat) (err : JSValue)
    (es : List Event) (t : String)
    (h : env.querySelector "#homeCarousel" = some e)
    (ht : env.typeofBootstrap = .ok t) (hb : t ≠ "undefined")
    (hr : getOrCreateCall env (.element e) s = ⟨.throw err, s1, es⟩) :
    domContentLoadedHandler env s =
      ⟨.normal .undefined, s1,
        .querySelector "#homeCarousel" :: .typeofGlobal "bootstrap" ::
          (es ++ [.warn [.string "Error initializing carousel:", err]])⟩ := by
  simp [domContentLoadedHandler, querySelector, typeofBootstrap, h, ht, hb, hr, bind, JS.bind,
    pure, JS.ret, JS.emit, JSValue.toBoolean, JS.tryCatch, consoleWarn]

/-- The guarded call when the library has the member chain and the accessor
is callable: the three reads, then the call. -/
theorem getOrCreateCall_callable (env : Env σ) (s : σ) (x b c : JSValue) (f : Nat)
    (fp : List (String × JSValue))
    (hb : env.bootstrap = .value b)
    (hc : b.props.lookup "Carousel" = some c)
    (hf : c.props.lookup "getOrCreateInstance" = some (.function f fp)) :
    getOrCreateCall env x s =
      match env.call f c [x, carouselConfig] s with
      | (.ok v, s1) => ⟨.normal v, s1, [.readGlobal "bootstrap", .getMember b "Carousel",
          .getMember c "getOrCreateInstance", .call f c [x, carouselConfig]]⟩
      | (.error err, s1) => ⟨.throw err, s1, [.readGlobal "bootstrap",
          .getMember b "Carousel", .getMember c "getOrCreateInstance",
          .call f c [x, carouselConfig]]⟩ := by
  have hbn : b.isNullish = false := by
    cases b <;> simp [JSValue.isNullish, JSValue.props] at hc ⊢
  have hcn : c.isNullish = false := by
    cases c <;> simp [JSValue.isNullish, JSValue.props] at hf ⊢
  rcases hcall : env.call f c [x, carouselConfig] s with ⟨r, s1⟩
  cases r <;>
  simp [getOrCreateCall, readBootstrap, getMember, callFunction, hb, hc, hf, hbn, hcn, hcall,
    bind, JS.bind, pure, JS.ret, JS.emit]

/-- A value with a member is defined: its `typeof` is not "undefined". -/
theorem typeof_ne_undefined_of_member (b c : JSValue) (name : String)
    (hc : b.props.lookup name = some c) : b.typeof ≠ "undefined" := by
  cases b <;> simp [JSValue.typeof, JSValue.props] at hc ⊢

/-! ## The claims about one run of the listener -/

/-- C1: when `document.querySelector("#homeCarousel")` returns the element `e`,
the global `bootstrap` holds a library `b` whose `Carousel` member `c` has a
callable `getOrCreateInstance`, and that call does not throw, one run of the
listener calls `getOrCreateInstance` exactly once, with arguments `e` and the
object with fields exactly `interval = 2000` and `ride = "carousel"`, writes
nothing to the console, and completes normally. -/
theorem handler_constructs_once (env : Env σ) (s s1 : σ) (e : Nat) (b c v : JSValue)
    (f : Nat) (fp : List (String × JSValue))
    (helem : env.querySelector "#homeCarousel" = some e)
    (hb : env.bootstrap = .value b)
    (hc : b.props.lookup "Carousel" = some c)
    (hf : c.props.lookup "getOrCreateInstance" = some (.function f fp))
    (hcall : env.call f c
      [.element e, .object [("interval", .number 2000), ("ride", .string "carousel")]] s
        = (.ok v, s1)) :
    calls (domContentLoadedHandler env s).events =
        [(f, c, [.element e,
          .object [("interval", .number 2000), ("ride", .string "carousel")]])] ∧
      warnings (domContentLoadedHandler env s).events = [] ∧
      (domContentLoadedHandler env s).completion = .normal .undefined ∧
      (domContentLoadedHandler env s).state = s1 := by
  have ht : env.typeofBootstrap = .ok b.typeof := by simp [Env.typeofBootstrap, hb]
  have hdef : b.typeof ≠ "undefined" := typeof_ne_undefined_of_member b c "Carousel" hc
  have hr := getOrCreateCall_callable env s (.element e) b c f fp hb hc hf
  simp only [carouselConfig, hcall] at hr
  rw [handler_call_normal env s s1 e v _ b.typeof helem ht hdef hr]
  simp [calls, warnings, Event.callArgs?, Event.warnArgs?]

/-- C1 at a sample: the home page with a stub library that has made no call
yet. -/
theorem handler_constructs_once_witness :
    (stubEnv homePage).querySelector "#homeCarousel" = some 7 ∧
      (stubEnv homePage).bootstrap = .value carouselLibrary ∧
      (calls (domContentLoadedHandler (stubEnv homePage) 0).events =
          [(1, .function 0 [("getOrCreateInstance", .function 1 [])], [.element 7,
            .object [("interval", .number 2000), ("ride", .string "carousel")]])] ∧
        warnings (domContentLoadedHandler (stubEnv homePage) 0).events = [] ∧
        (domContentLoadedHandler (stubEnv homePage) 0).completion = .normal .undefined ∧
        (domContentLoadedHandler (stubEnv homePage) 0).state = 1) :=
  ⟨rfl, rfl,
    handler_constructs_once (stubEnv homePage) 0 1 7 carouselLibrary
      (.function 0 [("getOrCreateInstance", .function 1 [])]) (.object []) 1 []
      rfl rfl rfl rfl rfl⟩

/-- C2: when `document.querySelector("#homeCarousel")` returns `null`, whatever
the global `bootstrap` is, one run of the listener only performs the lookup: it
calls no function, writes nothing to the console, leaves the library as it
was, and completes normally. -/
theorem handler_absent_element_noop (env : Env σ) (s : σ)
    (helem : env.querySelector "#homeCarousel" = none) :
    (domContentLoadedHandler env s).events = [.querySelector "#homeCarousel"] ∧
      calls (domContentLoadedHandler env s).events = [] ∧
      warnings (domContentLoadedHandler env s).events = [] ∧
      (domContentLoadedHandler env s).completion = .normal .undefined ∧
      (domContentLoadedHandler env s).state = s := by
  rw [handler_absent env s helem]
  simp [calls, warnings, Event.callArgs?, Event.warnArgs?]

/-- C2 at a sample: a page without the element and a library that would
throw. -/
theorem handler_absent_element_noop_witness :
    (throwingEnv plainPage).querySelector "#homeCarousel" = none ∧
      ((domContentLoadedHandler (throwingEnv plainPage) 0).events =
          [.querySelector "#homeCarousel"] ∧
        calls (domContentLoadedHandler (throwingEnv plainPage) 0).events = [] ∧
        warnings (domContentLoadedHandler (throwingEnv plainPage) 0).events = [] ∧
        (domContentLoadedHandler (throwingEnv plainPage) 0).completion = .normal .undefined ∧
        (domContentLoadedHandler (throwingEnv plainPage) 0).state = 0) :=
  ⟨rfl, handler_absent_element_noop (throwingEnv plainPage) 0 rfl⟩

/-- C3: when the element is present and `typeof bootstrap` is "undefined" (the
global has no binding, or holds `undefined`), one
run of the listener performs the lookup and the `typeof` and nothing else: no
function is called, neither the global nor any member of the library is read,
nothing is written to the console, and the listener completes normally. -/
theorem handler_missing_library_noop (env : Env σ) (s : σ) (e : Nat)
    (helem : env.querySelector "#homeCarousel" = some e)
    (hundef : env.typeofBootstrap = .ok "undefined") :
    (domContentLoadedHandler env s).events =
        [.querySelector "#homeCarousel", .typeofGlobal "bootstrap"] ∧
      calls (domContentLoadedHandler env s).events = [] ∧
      (domContentLoadedHandler env s).events.filter Event.isLibraryAccess = [] ∧
      warnings (domContentLoadedHandler env s).events = [] ∧
      (domContentLoadedHandler env s).completion = .normal .undefined ∧
      (domContentLoadedHandler env s).state = s := by
  rw [handler_no_library env s e helem hundef]
  simp [calls, warnings, Event.callArgs?, Event.warnArgs?, Event.isLibraryAccess]

/-- C3 at a sample: the home page with no binding for `bootstrap`. -/
theorem handler_missing_library_noop_witness :
    (bareEnv homePage .absent).querySelector "#homeCarousel" = some 7 ∧
      (bareEnv homePage .absent).typeofBootstrap = .ok "undefined" ∧
      ((domContentLoadedHandler (bareEnv homePage .absent) ()).events =
          [.querySelector "#homeCarousel", .typeofGlobal "bootstrap"] ∧
        calls (domContentLoadedHandler (bareEnv homePage .absent) ()).events = [] ∧
        (domContentLoadedHandler (bareEnv homePage .absent) ()).events.filter
          Event.isLibraryAccess = [] ∧
        warnings (domContentLoadedHandler (bareEnv homePage .absent) ()).events = [] ∧
        (domContentLoadedHandler (bareEnv homePage .absent) ()).completion = .normal .undefined ∧
        (domContentLoadedHandler (bareEnv homePage .absent) ()).state = ()) :=
  ⟨rfl, rfl, handler_missing_library_noop (bareEnv homePage .absent) () 7 rfl rfl⟩

/-- C4: when the element `e` is present, the global `bootstrap` holds a library
whose `Carousel.getOrCreateInstance` is callable, and that call throws `err`,
one run of the listener completes normally and writes exactly one warning to
the console, `console.warn("Error initializing carousel:", err)`, with that
same `err`; there is no other console output. -/
theorem handler_catches_and_warns (env : Env σ) (s s1 : σ) (e : Nat) (b c err : JSValue)
    (f : Nat) (fp : List (String × JSValue))
    (helem : env.querySelector "#homeCarousel" = some e)
    (hb : env.bootstrap = .value b)
    (hc : b.props.lookup "Carousel" = some c)
    (hf : c.props.lookup "getOrCreateInstance" = some (.function f fp))
    (hcall : env.call f c
      [.element e, .object [("interval", .number 2000), ("ride", .string "carousel")]] s
        = (.error err, s1)) :
    (domContentLoadedHandler env s).completion = .normal .undefined ∧
      warnings (domContentLoadedHandler env s).events =
        [[.string "Error initializing carousel:", err]] ∧
      (domContentLoadedHandler env s).state = s1 := by
  have ht : env.typeofBootstrap = .ok b.typeof := by simp [Env.typeofBootstrap, hb]
  have hdef : b.typeof ≠ "undefined" := typeof_ne_undefined_of_member b c "Carousel" hc
  have hr := getOrCreateCall_callable env s (.element e) b c f fp hb hc hf
  simp only [carouselConfig, hcall] at hr
  rw [handler_call_throw env s s1 e err _ b.typeof helem ht hdef hr]
  simp [warnings, Event.warnArgs?]

/-- C4 at a sample: the home page with a library whose accessor throws
"boom". -/
theorem handler_catches_and_warns_witness :
    (throwingEnv homePage).querySelector "#homeCarousel" = some 7 ∧
      (throwingEnv homePage).bootstrap = .value carouselLibrary ∧
      ((domContentLoadedHandler (throwingEnv homePage) 0).completion = .normal .undefined ∧
        warnings (domContentLoadedHandler (throwingEnv homePage) 0).events =
          [[.string "Error initializing carousel:", .string "boom"]] ∧
        (domContentLoadedHandler (throwingEnv homePage) 0).state = 1) :=
  ⟨rfl, rfl,
    handler_catches_and_warns (throwingEnv homePage) 0 1 7 carouselLibrary
      (.function 0 [("getOrCreateInstance", .function 1 [])]) (.string "boom") 1 []
      rfl rfl rfl rfl rfl⟩

/-- C5, as stated, fails: on the home page with the global `bootstrap` an
uninitialised binding (a `let`, `const` or `class` declaration not yet
evaluated), `typeof bootstrap` raises a `ReferenceError` outside the `try`
block and the listener passes it on to its caller, although neither
`document.querySelector` nor `console.warn` throws. -/
theorem handler_throws_on_uninitialized_binding :
    (bareEnv homePage .uninitialized).querySelector "#homeCarousel" = some 7 ∧
      (domContentLoadedHandler (bareEnv homePage .uninitialized) ()).completion =
        .throw (.error "ReferenceError") ∧
      (domContentLoadedHandler (bareEnv homePage .uninitialized) ()).events =
        [.querySelector "#homeCarousel", .typeofGlobal "bootstrap"] ∧
      ¬ (domContentLoadedHandler (bareEnv homePage .uninitialized) ()).completion =
        .normal .undefined := by
  refine ⟨rfl, rfl, rfl, ?_⟩
  have hc : (domContentLoadedHandler (bareEnv homePage .uninitialized) ()).completion =
      .throw (.error "ReferenceError") := rfl
  rw [hc]
  intro h
  cases h

/-- C5, amended: for every environment and every library state in which the
element is absent or `typeof bootstrap` does not raise (the global has no
binding or holds any value: `undefined`, `null`, an object without `Carousel`,
a library whose accessor throws, a working library), one run of the listener
completes normally: nothing raised inside the `try` block reaches its caller.
When the element is present and `typeof bootstrap` raises `err`, the listener
completes abruptly with `err`. -/
theorem handler_returns_unless_guard_raises (env : Env σ) (s : σ) :
    ((env.querySelector "#homeCarousel" = none ∨ ∃ t, env.typeofBootstrap = .ok t) →
        (domContentLoadedHandler env s).completion = .normal .undefined) ∧
      (∀ e err, env.querySelector "#homeCarousel" = some e →
        env.typeofBootstrap = .error err →
        (domContentLoadedHandler env s).completion = .throw err) := by
  constructor
  · intro h
    cases helem : env.querySelector "#homeCarousel" with
    | none => rw [handler_absent env s helem]
    | some e =>
      rcases h with h | ⟨t, ht⟩
      · rw [helem] at h; cases h
      · by_cases hdef : t = "undefined"
        · subst hdef
          rw [handler_no_library env s e helem ht]
        · rcases hr : getOrCreateCall env (.element e) s with ⟨c, s1, es⟩
          cases c with
          | normal v => rw [handler_call_normal env s s1 e v es t helem ht hdef hr]
          | throw err => rw [handler_call_throw env s s1 e err es t helem ht hdef hr]
  · intro e err helem herr
    rw [handler_guard_throw env s e err helem herr]

/-- C5 amended, at two samples: the home page with `bootstrap` bound to `null`
(the listener completes normally), and with `bootstrap` an accessor whose
getter throws "boom" (the listener throws "boom"). -/
theorem handler_returns_unless_guard_raises_witness :
    (∃ t, (bareEnv homePage (.value .null)).typeofBootstrap = .ok t) ∧
      (domContentLoadedHandler (bareEnv homePage (.value .null)) ()).completion =
        .normal .undefined ∧
      (bareEnv homePage (.throwingAccessor (.string "boom"))).typeofBootstrap =
        .error (.string "boom") ∧
      (domContentLoadedHandler (bareEnv homePage (.throwingAccessor (.string "boom")))
        ()).completion = .throw (.string "boom") :=
  ⟨⟨"object", rfl⟩,
    (handler_returns_unless_guard_raises (bareEnv homePage (.value .null)) ()).1 (Or.inr ⟨"object", rfl⟩),
    rfl,
    (handler_returns_unless_guard_raises (bareEnv homePage (.throwingAccessor (.string "boom"))) ()).2
      7 (.string "boom") rfl rfl⟩

/-- C9: one run of the listener writes at most one warning; it writes exactly
one if and only if the element is present, `typeof bootstrap` gives a string
other than "undefined", and evaluating
`bootstrap.Carousel.getOrCreateInstance(element, config)` raises; otherwise the
console is untouched.  It calls at most one function, and calls one only when
the element is present and `bootstrap` is defined. -/
theorem handler_warns_iff_call_raises (env : Env σ) (s : σ) :
    (warnings (domContentLoadedHandler env s).events).length ≤ 1 ∧
      ((warnings (domContentLoadedHandler env s).events).length = 1 ↔
        ∃ e, env.querySelector "#homeCarousel" = some e ∧
          (∃ t, env.typeofBootstrap = .ok t ∧ t ≠ "undefined") ∧
          (getOrCreateCall env (.element e) s).completion.isThrow = true) ∧
      ((¬ ∃ e, env.querySelector "#homeCarousel" = some e ∧
          (∃ t, env.typeofBootstrap = .ok t ∧ t ≠ "undefined") ∧
          (getOrCreateCall env (.element e) s).completion.isThrow = true) →
        warnings (domContentLoadedHandler env s).events = []) ∧
      (calls (domContentLoadedHandler env s).events).length ≤ 1 ∧
      (calls (domContentLoadedHandler env s).events ≠ [] →
        (∃ e, env.querySelector "#homeCarousel" = some e) ∧
          ∃ t, env.typeofBootstrap = .ok t ∧ t ≠ "undefined") := by
  cases helem : env.querySelector "#homeCarousel" with
  | none =>
    rw [handler_absent env s helem]
    simp [calls, warnings, Event.callArgs?, Event.warnArgs?]
  | some e =>
    cases ht : env.typeofBootstrap with
    | error err =>
      rw [handler_guard_throw env s e err helem ht]
      simp [calls, warnings, Event.callArgs?, Event.warnArgs?]
    | ok t =>
      by_cases hdef : t = "undefined"
      · subst hdef
        rw [handler_no_library env s e helem ht]
        simp [calls, warnings, Event.callArgs?, Event.warnArgs?]
      · have hw := getOrCreateCall_warnings env (.element e) s
        have hc := getOrCreateCall_calls env (.element e) s
        rcases hr : getOrCreateCall env (.element e) s with ⟨c, s1, es⟩
        rw [hr] at hw hc
        simp only [warnings, calls] at hw hc
        cases c with
        | normal v =>
          rw [handler_call_normal env s s1 e v es t helem ht hdef hr]
          simp [calls, warnings, Event.callArgs?, Event.warnArgs?, hdef, hw, hc, hr,
            Completion.isThrow]
        | throw err =>
          rw [handler_call_throw env s s1 e err es t helem ht hdef hr]
          simp [calls, warnings, Event.callArgs?, Event.warnArgs?, hdef, hw, hc, hr,
            Completion.isThrow, List.filterMap_append]

/-- C10: the guard tests only that `bootstrap` is defined.  When the element is
present and `bootstrap` holds a defined value that is `null` or has no
`Carousel` member, one run of the listener is not silent: reading the member
chain raises a `TypeError` inside the `try` block, no function is called, the
library state is untouched, exactly one warning carrying that error is written,
and the listener completes normally. -/
theorem handler_warns_without_carousel_member (env : Env σ) (s : σ) (e : Nat) (b : JSValue)
    (helem : env.querySelector "#homeCarousel" = some e)
    (hb : env.bootstrap = .value b)
    (hdef : b.typeof ≠ "undefined")
    (hno : b = .null ∨ b.hasMember "Carousel" = false) :
    (getOrCreateCall env (.element e) s).completion = .throw (.error "TypeError") ∧
      calls (domContentLoadedHandler env s).events = [] ∧
      warnings (domContentLoadedHandler env s).events =
        [[.string "Error initializing carousel:", .error "TypeError"]] ∧
      (domContentLoadedHandler env s).completion = .normal .undefined ∧
      (domContentLoadedHandler env s).state = s := by
  have ht : env.typeofBootstrap = .ok b.typeof := by simp [Env.typeofBootstrap, hb]
  have hr : ∃ es, getOrCreateCall env (.element e) s = ⟨.throw (.error "TypeError"), s, es⟩ ∧
      calls es = [] ∧ warnings es = [] := by
    cases hbn : b.isNullish with
    | true =>
      exact ⟨[.readGlobal "bootstrap", .getMember b "Carousel"], by
        simp [getOrCreateCall, readBootstrap, getMember, hb, hbn, bind, JS.bind, pure, JS.ret,
          JS.emit, JS.throw], rfl, rfl⟩
    | false =>
      have hlook : b.props.lookup "Carousel" = none := by
        rcases hno with h | h
        · subst h; simp [JSValue.isNullish] at hbn
        · simpa [JSValue.hasMember] using h
      have hun : JSValue.undefined.isNullish = true := rfl
      exact ⟨[.readGlobal "bootstrap", .getMember b "Carousel",
          .getMember .undefined "getOrCreateInstance"], by
        simp [getOrCreateCall, readBootstrap, getMember, hb, hbn, hlook, hun, bind, JS.bind,
          pure, JS.ret, JS.emit, JS.throw], rfl, rfl⟩
  obtain ⟨es, hr, hcs, hws⟩ := hr
  simp only [calls, warnings] at hcs hws
  rw [handler_call_throw env s s e _ es b.typeof helem ht hdef hr, hr]
  simp [calls, warnings, Event.callArgs?, Event.warnArgs?, hcs, hws, List.filterMap_append]

/-- C10 at a sample: the home page with `bootstrap` bound to an empty object. -/
theorem handler_warns_without_carousel_member_witness :
    (bareEnv homePage (.value (.object []))).querySelector "#homeCarousel" = some 7 ∧
      (bareEnv homePage (.value (.object []))).bootstrap = .value (.object []) ∧
      ((getOrCreateCall (bareEnv homePage (.value (.object []))) (.element 7) ()).completion =
          .throw (.error "TypeError") ∧
        calls (domContentLoadedHandler (bareEnv homePage (.value (.object []))) ()).events = [] ∧
        warnings (domContentLoadedHandler (bareEnv homePage (.value (.object []))) ()).events =
          [[.string "Error initializing carousel:", .error "TypeError"]] ∧
        (domContentLoadedHandler (bareEnv homePage (.value (.object []))) ()).completion =
          .normal .undefined ∧
        (domContentLoadedHandler (bareEnv homePage (.value (.object []))) ()).state = ()) :=
  ⟨rfl, rfl,
    handler_warns_without_carousel_member (bareEnv homePage (.value (.object []))) () 7
      (.object []) rfl rfl (by decide) (Or.inr rfl)⟩

/-! ## The listener over the get-or-create library -/

/-- Looking up a key bound at the end of a store that did not bind it. -/
theorem lookup_append_new (e : Nat) (inst : Instance) (store : InstanceStore)
    (h : store.lookup e = none) : (store ++ [(e, inst)]).lookup e = some inst := by
  induction store with
  | nil => simp [List.lookup]
  | cons b rest ih =>
    obtain ⟨k, i⟩ := b
    by_cases hk : e = k
    · subst hk; simp [List.lookup] at h
    · have hne : (e == k) = false := by simpa using hk
      simp only [List.cons_append, List.lookup, hne] at h ⊢
      exact ih h

/-- A store that does not bind an element holds no control for it. -/
theorem instancesOf_eq_zero_of_lookup (e : Nat) (store : InstanceStore)
    (h : store.lookup e = none) : instancesOf e store = 0 := by
  induction store with
  | nil => rfl
  | cons b rest ih =>
    obtain ⟨k, i⟩ := b
    by_cases hk : e = k
    · subst hk; simp [List.lookup] at h
    · have hne : (e == k) = false := by simpa using hk
      have hne2 : (k == e) = false := by simpa using fun h2 : k = e => hk h2.symm
      simp only [List.lookup, hne] at h
      have := ih h
      simp only [instancesOf, List.filter, hne2] at this ⊢
      exact this

/-- Binding one more control to an element adds one to its count. -/
theorem instancesOf_append_new (e : Nat) (inst : Instance) (store : InstanceStore) :
    instancesOf e (store ++ [(e, inst)]) = instancesOf e store + 1 := by
  simp [instancesOf, List.filter_append]

/-- One run of the listener over the get-or-create library, with the element
present: it completes normally without a warning, and the store afterwards is
the one `getOrCreateInstance` leaves. -/
theorem handler_library_run (document : String → Option Nat) (e : Nat)
    (store : InstanceStore) (helem : document "#homeCarousel" = some e) :
    (domContentLoadedHandler (libraryEnv document) store).completion = .normal .undefined ∧
      warnings (domContentLoadedHandler (libraryEnv document) store).events = [] ∧
      (domContentLoadedHandler (libraryEnv document) store).state =
        (getOrCreateInstance e carouselConfig store).2 := by
  have ht : (libraryEnv document).typeofBootstrap = .ok "object" := rfl
  have hdef : "object" ≠ "undefined" := by decide
  have hr := getOrCreateCall_callable (libraryEnv document) store (.element e) carouselLibrary
    (.function 0 [("getOrCreateInstance", .function 1 [])]) 1 [] rfl rfl rfl
  rcases hg : getOrCreateInstance e carouselConfig store with ⟨inst, store1⟩
  have hcall : (libraryEnv document).call 1
      (.function 0 [("getOrCreateInstance", .function 1 [])])
      [.element e, carouselConfig] store = (.ok inst.toValue, store1) := by
    simp [libraryEnv, libraryCall, hg]
  simp only [hcall] at hr
  rw [handler_call_normal (libraryEnv document) store store1 e _ _ "object" helem ht hdef hr]
  simp [warnings, Event.warnArgs?]

/-- Get-or-create twice is get-or-create once. -/
theorem getOrCreateInstance_twice (e : Nat) (config : JSValue) (store : InstanceStore) :
    (getOrCreateInstance e config (getOrCreateInstance e config store).2).2 =
      (getOrCreateInstance e config store).2 := by
  cases h : store.lookup e with
  | some inst => simp [getOrCreateInstance, h]
  | none =>
    simp [getOrCreateInstance, h, lookup_append_new e (Instance.ofConfig config) store h]

/-- Get-or-create keeps the controls of an element at most one. -/
theorem getOrCreateInstance_count (e : Nat) (config : JSValue) (store : InstanceStore)
    (h : instancesOf e store ≤ 1) :
    instancesOf e (getOrCreateInstance e config store).2 ≤ 1 := by
  cases hl : store.lookup e with
  | some inst => simpa [getOrCreateInstance, hl] using h
  | none =>
    simp [getOrCreateInstance, hl, instancesOf_append_new,
      instancesOf_eq_zero_of_lookup e store hl]

/-- C6: over a library whose `getOrCreateInstance` is get-or-create on the
instances bound to elements, running the listener twice in succession on a
page with the element `e` leaves the store the first run left, and a store
that bound at most one control to `e` still binds at most one after the second
run. -/
theorem handler_twice_idempotent (document : String → Option Nat) (e : Nat)
    (store : InstanceStore) (helem : document "#homeCarousel" = some e) :
    (domContentLoadedHandler (libraryEnv document)
        (domContentLoadedHandler (libraryEnv document) store).state).state =
      (domContentLoadedHandler (libraryEnv document) store).state ∧
    (instancesOf e store ≤ 1 →
      instancesOf e (domContentLoadedHandler (libraryEnv document)
        (domContentLoadedHandler (libraryEnv document) store).state).state ≤ 1) := by
  have h1 := (handler_library_run document e store helem).2.2
  have h2 := (handler_library_run document e
    (domContentLoadedHandler (libraryEnv document) store).state helem).2.2
  rw [h2, h1, getOrCreateInstance_twice]
  exact ⟨rfl, getOrCreateInstance_count e carouselConfig store⟩

/-- C6 at a sample: the home page, nothing bound before the first run; one
control is bound after the second. -/
theorem handler_twice_idempotent_witness :
    homePage "#homeCarousel" = some 7 ∧ instancesOf 7 [] ≤ 1 ∧
      (domContentLoadedHandler (libraryEnv homePage)
          (domContentLoadedHandler (libraryEnv homePage) []).state).state =
        (domContentLoadedHandler (libraryEnv homePage) []).state ∧
      instancesOf 7 (domContentLoadedHandler (libraryEnv homePage)
        (domContentLoadedHandler (libraryEnv homePage) []).state).state ≤ 1 :=
  ⟨rfl, by decide, (handler_twice_idempotent homePage 7 [] rfl).1,
    (handler_twice_idempotent homePage 7 [] rfl).2 (by decide)⟩

/-- C7, as stated, fails: on the home page with a control of interval 5000
already bound to `#homeCarousel`, the run of the listener succeeds (normal
completion, no warning), and the control bound to the element afterwards is
the old one; no control of interval 2000 is bound to it. -/
theorem bound_interval_not_2000 :
    (domContentLoadedHandler (libraryEnv homePage)
        [(7, { interval := .number 5000, ride := .string "carousel" })]).completion =
      .normal .undefined ∧
    warnings (domContentLoadedHandler (libraryEnv homePage)
        [(7, { interval := .number 5000, ride := .string "carousel" })]).events = [] ∧
    (domContentLoadedHandler (libraryEnv homePage)
        [(7, { interval := .number 5000, ride := .string "carousel" })]).state.lookup 7 =
      some { interval := .number 5000, ride := .string "carousel" } ∧
    ¬ ∃ inst, (domContentLoadedHandler (libraryEnv homePage)
        [(7, { interval := .number 5000, ride := .string "carousel" })]).state.lookup 7 =
          some inst ∧ inst.interval = .number 2000 := by
  refine ⟨rfl, rfl, rfl, ?_⟩
  rintro ⟨inst, hl, hi⟩
  have hs : (domContentLoadedHandler (libraryEnv homePage)
      [(7, { interval := .number 5000, ride := .string "carousel" })]).state.lookup 7 =
      some { interval := .number 5000, ride := .string "carousel" } := rfl
  rw [hs] at hl
  cases hl
  simp at hi

/-- C7, amended: over the get-or-create library, after one run of the
listener on a page with the element `e`, the run is successful and: if no
control was bound to `e` before, the control bound to `e` has interval 2000
and ride "carousel"; if a control was bound to `e` before, that control is
still the one bound and the store is unchanged. -/
theorem handler_interval_when_created (document : String → Option Nat) (e : Nat)
    (store : InstanceStore) (helem : document "#homeCarousel" = some e) :
    (domContentLoadedHandler (libraryEnv document) store).completion = .normal .undefined ∧
    warnings (domContentLoadedHandler (libraryEnv document) store).events = [] ∧
    (store.lookup e = none →
      (domContentLoadedHandler (libraryEnv document) store).state.lookup e =
        some { interval := .number 2000, ride := .string "carousel" }) ∧
    (∀ inst, store.lookup e = some inst →
      (domContentLoadedHandler (libraryEnv document) store).state.lookup e = some inst ∧
      (domContentLoadedHandler (libraryEnv document) store).state = store) := by
  obtain ⟨hc, hw, hs⟩ := handler_library_run document e store helem
  refine ⟨hc, hw, ?_, ?_⟩
  · intro hl
    rw [hs]
    simp only [getOrCreateInstance, hl]
    exact lookup_append_new e _ store hl
  · intro inst hl
    rw [hs]
    simp [getOrCreateInstance, hl]

/-- C7 amended, at two samples: the home page with nothing bound, and with a
control of interval 5000 bound. -/
theorem handler_interval_when_created_witness :
    homePage "#homeCarousel" = some 7 ∧ List.lookup 7 ([] : InstanceStore) = none ∧
      (domContentLoadedHandler (libraryEnv homePage) []).state.lookup 7 =
        some { interval := .number 2000, ride := .string "carousel" } ∧
      (domContentLoadedHandler (libraryEnv homePage)
          [(7, { interval := .number 5000, ride := .string "carousel" })]).state =
        [(7, { interval := .number 5000, ride := .string "carousel" })] :=
  ⟨rfl, rfl, (handler_interval_when_created homePage 7 [] rfl).2.2.1 rfl,
    ((handler_interval_when_created homePage 7
      [(7, { interval := .number 5000, ride := .string "carousel" })] rfl).2.2.2
        { interval := .number 5000, ride := .string "carousel" } rfl).2⟩

/-! ## The top level of the script and the page-ready event -/

/-- One run of the listener performs exactly one element lookup. -/
theorem handler_one_lookup (env : Env σ) (s : σ) :
    ((domContentLoadedHandler env s).events.filter Event.isLookup).length = 1 := by
  cases helem : env.querySelector "#homeCarousel" with
  | none => rw [handler_absent env s helem]; rfl
  | some e =>
    cases ht : env.typeofBootstrap with
    | error err => rw [handler_guard_throw env s e err helem ht]; rfl
    | ok t =>
      by_cases hdef : t = "undefined"
      · subst hdef
        rw [handler_no_library env s e helem ht]; rfl
      · have hl := getOrCreateCall_lookups env (.element e) s
        rcases hr : getOrCreateCall env (.element e) s with ⟨c, s1, es⟩
        rw [hr] at hl
        simp only at hl
        cases c with
        | normal v =>
          rw [handler_call_normal env s s1 e v es t helem ht hdef hr]
          simp [Event.isLookup, hl]
        | throw err =>
          rw [handler_call_throw env s s1 e err es t helem ht hdef hr]
          simp [Event.isLookup, hl, List.filter_append]

/-- C8: executing the top level of the script performs exactly one action, the
call `document.addEventListener("DOMContentLoaded", listener)`: no element
lookup, no library access, no console output, and the library state is
untouched; the one listener it adds is the listener of lines 3 to 17.  On a
page with no other listener, a host that then fires `DOMContentLoaded` once
runs that listener once: the effect on the library and the actions are those
of one run, with exactly one element lookup. -/
theorem script_subscribes_once (env : Env σ) (p : Page σ) (s : σ) :
    (scripts env p).events = [.addEventListener "DOMContentLoaded"] ∧
      (scripts env p).completion = .normal .undefined ∧
      (scripts env p).state.library = p.library ∧
      (scripts env p).state.listeners =
        p.listeners ++ [("DOMContentLoaded", domContentLoadedHandler env)] ∧
      (dispatchEvent "DOMContentLoaded"
          (scripts env { listeners := [], library := s }).state).1.library =
        (domContentLoadedHandler env s).state ∧
      (dispatchEvent "DOMContentLoaded"
          (scripts env { listeners := [], library := s }).state).2 =
        (domContentLoadedHandler env s).events ∧
      ((dispatchEvent "DOMContentLoaded"
          (scripts env { listeners := [], library := s }).state).2.filter
            Event.isLookup).length = 1 := by
  have hd : dispatchEvent "DOMContentLoaded"
      (scripts env { listeners := [], library := s }).state =
      ({ listeners := [("DOMContentLoaded", domContentLoadedHandler env)],
         library := (domContentLoadedHandler env s).state },
        (domContentLoadedHandler env s).events) := by
    simp [dispatchEvent, scripts, addEventListener, runListeners]
  refine ⟨rfl, rfl, rfl, rfl, ?_, ?_, ?_⟩
  · rw [hd]
  · rw [hd]
  · rw [hd]; exact handler_one_lookup env s

end Scripts
